import Mathlib

/-!
Shallow embedding of the ztalk source (React context providers in the
repository) together with models, taken from the specification, of the
messaging daemon that the repository scripts invoke but whose code is not
present under src.  Timestamps (JS Date values) are embedded as natural
numbers; JS string-keyed records are embedded as association lists; the
nondeterministic parts of the source (generated ids, random indices) are
embedded as explicit parameters.
-/

namespace Ztalk

/-- Embeds the whitespace class used by the JS string trim for the
whitespace characters that occur in this code base. -/
def isWhitespaceChar (c : Char) : Bool :=
  c = ' ' ∨ c = '\t' ∨ c = '\n' ∨ c = '\r'

/-- Embeds JS String.prototype.trim as a computable function on the
character list. -/
def jsTrim (s : String) : String :=
  ⟨((s.data.dropWhile isWhitespaceChar).reverse.dropWhile isWhitespaceChar).reverse⟩

/-- Lowers one ASCII letter, as JS toLowerCase does on this ASCII-only
code base. -/
def lowerChar (c : Char) : Char :=
  if 'A' ≤ c ∧ c ≤ 'Z' then Char.ofNat (c.toNat + 32) else c

/-- Embeds JS String.prototype.toLowerCase on ASCII strings. -/
def jsToLower (s : String) : String :=
  ⟨s.data.map lowerChar⟩

/-- Embeds JS String.prototype.startsWith. -/
def jsStartsWith (s pre : String) : Bool :=
  pre.data.isPrefixOf s.data

/-- Embeds JS String.prototype.substring with a single start index. -/
def jsDrop (s : String) (n : Nat) : String :=
  ⟨s.data.drop n⟩

namespace SSH

/-- Embeds the SSHConfig interface of the SSH context provider. -/
structure SSHConfig where
  id : Option String
  name : String
  host : String
  port : Nat
  username : String
  password : Option String
  privateKey : Option String
  passphrase : Option String
  savePassword : Bool
deriving Repr, DecidableEq

/-- Embeds the status union type of SSHConnection: the source type has
exactly the four string values connecting, connected, disconnected and
error. -/
inductive SSHStatus where
  | connecting
  | connected
  | disconnected
  | error
deriving Repr, DecidableEq

/-- Embeds one entry of the history field of SSHConnection. -/
structure HistoryEntry where
  command : String
  timestamp : Nat
deriving Repr, DecidableEq

/-- Embeds the SSHConnection interface of the SSH context provider. -/
structure SSHConnection where
  id : String
  config : SSHConfig
  status : SSHStatus
  error : Option String
  lastActivity : Nat
  history : List HistoryEntry
deriving Repr, DecidableEq

/-- Embeds the SSHOutput interface (one output chunk). -/
structure SSHOutput where
  connectionId : String
  output : String
  error : Bool
  timestamp : Nat
deriving Repr, DecidableEq

/-- Embeds the state held by the SSH provider: the connections list, the
outputs record (a JS object keyed by connection id, embedded as an
association list), the active connection and the isConnecting flag. -/
structure SSHState where
  connections : List SSHConnection
  outputs : List (String × List SSHOutput)
  activeConnection : Option String
  isConnecting : Bool
deriving Repr, DecidableEq

/-- Embeds the JS read pattern for the outputs record:
prev[connectionId] or the empty list when the key is absent. -/
def getOutputs (o : List (String × List SSHOutput)) (k : String) : List SSHOutput :=
  match o.find? (fun p => p.1 == k) with
  | some p => p.2
  | none => []

/-- Embeds the JS object spread update of the outputs record: an existing
key keeps its position and gets the new value, a fresh key is appended. -/
def setOutputs (o : List (String × List SSHOutput)) (k : String)
    (v : List SSHOutput) : List (String × List SSHOutput) :=
  if o.any (fun p => p.1 == k) then
    o.map (fun p => if p.1 == k then (k, v) else p)
  else
    o ++ [(k, v)]

/-- Embeds the recurring source pattern: read the chunk list for a
connection (empty when absent) and store it with one chunk appended. -/
def appendOutput (o : List (String × List SSHOutput)) (k : String)
    (chunk : SSHOutput) : List (String × List SSHOutput) :=
  setOutputs o k (getOutputs o k ++ [chunk])

/-- Embeds the chunk written when connect begins. -/
def connectingChunk (config : SSHConfig) (cid : String) (now : Nat) : SSHOutput :=
  { connectionId := cid
    output := "Connecting to " ++ config.host ++ ":" ++ toString config.port
      ++ " as " ++ config.username ++ "...\r\n"
    error := false
    timestamp := now }

/-- Embeds the chunk written when connect succeeds. -/
def connectedChunk (config : SSHConfig) (cid : String) (now : Nat) : SSHOutput :=
  { connectionId := cid
    output := "Connected to " ++ config.host ++ "\r\n"
    error := false
    timestamp := now }

/-- Embeds the chunk written by disconnect. -/
def disconnectedChunk (c : String) (now : Nat) : SSHOutput :=
  { connectionId := c, output := "Disconnected\r\n", error := false, timestamp := now }

/-- Embeds the chunk echoing the entered command. -/
def echoChunk (c cmd : String) (now : Nat) : SSHOutput :=
  { connectionId := c, output := "$ " ++ cmd ++ "\r\n", error := false, timestamp := now }

/-- Embeds the caught Not connected error chunk of executeCommand. -/
def notConnectedChunk (c : String) (now : Nat) : SSHOutput :=
  { connectionId := c, output := "Error: Not connected\r\n", error := true, timestamp := now }

/-- Embeds the chunk written by clearOutput. -/
def clearedChunk (c : String) (now : Nat) : SSHOutput :=
  { connectionId := c, output := "Terminal cleared\r\n", error := false, timestamp := now }

/-- Embeds the first half of connect, up to the simulated await: builds the
connection id, filters the password by savePassword, appends the new
connection in status connecting and initialises its output buffer with a
single chunk.  The generated fallback id is passed as the parameter
fresh. -/
def connectStart (now : Nat) (fresh : String) (config : SSHConfig)
    (s : SSHState) : SSHState :=
  let connectionId := config.id.getD fresh
  let newConnection : SSHConnection :=
    { id := connectionId
      config := { config with
                  password := if config.savePassword then config.password else none }
      status := SSHStatus.connecting
      error := none
      lastActivity := now
      history := [] }
  { s with
    isConnecting := true
    connections := s.connections ++ [newConnection]
    outputs := setOutputs s.outputs connectionId [connectingChunk config connectionId now] }

/-- Embeds the second half of connect, after the simulated await: marks
every connection with the given id connected, appends the success chunk,
sets the active connection when none is set and clears isConnecting. -/
def connectFinish (now : Nat) (fresh : String) (config : SSHConfig)
    (s : SSHState) : SSHState :=
  let connectionId := config.id.getD fresh
  { s with
    connections := s.connections.map (fun c =>
      if c.id == connectionId then { c with status := SSHStatus.connected } else c)
    outputs := appendOutput s.outputs connectionId (connectedChunk config connectionId now)
    activeConnection :=
      if s.activeConnection = none then some connectionId else s.activeConnection
    isConnecting := false }

/-- Embeds disconnect: maps the matching connection to status disconnected,
appends the Disconnected chunk, clears the active connection when it was
this one, and returns true. -/
def disconnect (now : Nat) (connectionId : String) (s : SSHState) :
    SSHState × Bool :=
  ({ s with
     connections := s.connections.map (fun c =>
       if c.id == connectionId then { c with status := SSHStatus.disconnected } else c)
     outputs := appendOutput s.outputs connectionId (disconnectedChunk connectionId now)
     activeConnection :=
       if s.activeConnection = some connectionId then none else s.activeConnection },
   true)

/-- Embeds getSimulatedCommandOutput, the deterministic demo output of
executeCommand; the JS Date string of the date command is embedded as the
decimal print of the current timestamp. -/
def getSimulatedCommandOutput (now : Nat) (command : String) : String :=
  let cmd := jsToLower (jsTrim command)
  if cmd = "ls" ∨ cmd = "ls -la" then
    "total 32\ndrwxr-xr-x  5 user group  160 Jul 22 10:30 .\ndrwxr-xr-x 15 user group  480 Jul 22 10:25 ..\n-rw-r--r--  1 user group  230 Jul 22 10:28 .gitignore\ndrwxr-xr-x  8 user group  256 Jul 22 10:27 node_modules\n-rw-r--r--  1 user group  390 Jul 22 10:26 package.json\n-rw-r--r--  1 user group 9382 Jul 22 10:26 package-lock.json\ndrwxr-xr-x  4 user group  128 Jul 22 10:26 public\ndrwxr-xr-x  5 user group  160 Jul 22 10:29 src\n-rw-r--r--  1 user group  450 Jul 22 10:26 tsconfig.json\r\n"
  else if cmd = "pwd" then "/home/user/projects\r\n"
  else if cmd = "date" then toString now ++ "\r\n"
  else if cmd = "whoami" then "user\r\n"
  else if cmd = "uname -a" then
    "Linux hostname 5.15.0-78-generic #85-Ubuntu SMP Fri Jul 7 15:26:27 UTC 2023 x86_64 GNU/Linux\r\n"
  else if jsStartsWith cmd "echo " then jsDrop command 5 ++ "\r\n"
  else if cmd = "help" ∨ cmd = "--help" then
    "Available commands in demo: ls, pwd, date, whoami, uname -a, echo, help\r\n"
  else "Command not found: " ++ command ++ "\r\n"

/-- Embeds the chunk holding the simulated command output. -/
def simChunk (c cmd : String) (now : Nat) : SSHOutput :=
  { connectionId := c
    output := getSimulatedCommandOutput now cmd
    error := false
    timestamp := now }

/-- Embeds executeCommand: when the connection is missing or not connected
the thrown Not connected error is caught, one error chunk is appended and
false is returned; otherwise the command is appended to the history with
its timestamp, lastActivity is refreshed, the echo chunk and the simulated
output chunk are appended and true is returned. -/
def executeCommand (now : Nat) (connectionId command : String) (s : SSHState) :
    SSHState × Bool :=
  match s.connections.find? (fun conn => conn.id == connectionId) with
  | some conn =>
    if conn.status = SSHStatus.connected then
      ({ s with
         connections := s.connections.map (fun c =>
           if c.id == connectionId then
             { c with
               lastActivity := now
               history := c.history ++ [{ command := command, timestamp := now }] }
           else c)
         outputs :=
           appendOutput
             (appendOutput s.outputs connectionId (echoChunk connectionId command now))
             connectionId (simChunk connectionId command now) },
       true)
    else
      ({ s with
         outputs := appendOutput s.outputs connectionId
           (notConnectedChunk connectionId now) },
       false)
  | none =>
      ({ s with
         outputs := appendOutput s.outputs connectionId
           (notConnectedChunk connectionId now) },
       false)

/-- Embeds clearOutput: replaces the whole buffer of the connection with a
single Terminal cleared chunk. -/
def clearOutput (now : Nat) (connectionId : String) (s : SSHState) : SSHState :=
  { s with
    outputs := setOutputs s.outputs connectionId [clearedChunk connectionId now] }

/-- Status of the connection a JS find with the given id would return. -/
def statusOf (s : SSHState) (c : String) : Option SSHStatus :=
  (s.connections.find? (fun conn => conn.id == c)).map (fun conn => conn.status)

end SSH

namespace Net

/-- Embeds the Peer interface of the network context provider (the mock
peer list). -/
structure Peer where
  id : String
  name : String
  isOnline : Bool
  lastSeen : Option Nat
deriving Repr, DecidableEq

/-- Embeds the Message interface of the network context provider. -/
structure Message where
  id : String
  content : String
  sender : String
  senderName : String
  recipient : Option String
  group : Option String
  timestamp : Nat
  isPrivate : Bool
  isRead : Bool
deriving Repr, DecidableEq

/-- Embeds JS double-negation truthiness of an optional string: false for
undefined and for the empty string. -/
def truthy : Option String → Bool
  | none => false
  | some s => s ≠ ""

/-- Embeds the message object literal built inside sendMessage; the
generated uuid is passed as the parameter id. -/
def mkSendMessage (now : Nat) (id username content : String)
    (recipientId groupId : Option String) : Message :=
  { id := id
    content := content
    sender := "self"
    senderName := username
    recipient := recipientId
    group := groupId
    timestamp := now
    isPrivate := truthy recipientId
    isRead := true }

/-- Embeds the synchronous part of sendMessage: a blank content is
rejected, otherwise the new message is appended to the message list. -/
def sendMessage (now : Nat) (id username content : String)
    (recipientId groupId : Option String) (messages : List Message) :
    List Message :=
  if jsTrim content = "" then messages
  else messages ++ [mkSendMessage now id username content recipientId groupId]

/-- Embeds the fixed list of simulated reply texts inside sendMessage. -/
def responseContents : List String :=
  ["Thank you for your message!",
   "I\x27ll get back to you soon.",
   "Interesting point, let me think about it.",
   "That\x27s a great idea!",
   "I\x27m not sure I understand, can you clarify?"]

/-- Embeds the simulated reply message that sendMessage schedules when the
recipient peer exists and is online; the random index is passed as the
parameter k. -/
def mkResponse (now : Nat) (id recipientId recipientName : String) (k : Nat) :
    Message :=
  { id := id
    content := (responseContents.get? (k % responseContents.length)).getD ""
    sender := recipientId
    senderName := recipientName
    recipient := some "self"
    group := none
    timestamp := now
    isPrivate := true
    isRead := false }

/-- Embeds the delivery of one inbound message in the network provider:
both simulated inbound paths of the source append the message to the
message list unconditionally. -/
def deliverMock (m : Message) (messages : List Message) : List Message :=
  messages ++ [m]

end Net

namespace SpecModel

/-- Modelled from the spec: the peer liveness states Online, Stale and
Offline of the Peer Registry; the registry implementation (part of the
messaging daemon launched by the repository scripts) is not present under
src. -/
inductive PeerState where
  | Online
  | Stale
  | Offline
deriving Repr, DecidableEq

/-- Modelled from the spec: the Peer record of the registry data model,
with the ordered address list, the lastSeen timestamp and the liveness
state. -/
structure Peer where
  id : String
  displayName : String
  addresses : List (String × Nat)
  lastSeen : Nat
  state : PeerState
deriving Repr, DecidableEq

/-- Modelled from the spec: the liveness state a peer earns from the time
elapsed since lastSeen — Online within the heartbeat window, Stale after a
missed interval, Offline from three missed intervals on. -/
def peerStateFor (h now lastSeen : Nat) : PeerState :=
  if now - lastSeen < h then PeerState.Online
  else if now - lastSeen < 3 * h then PeerState.Stale
  else PeerState.Offline

/-- Modelled from the spec: markSweep of the Peer Registry — refreshes
every liveness state from the elapsed time and evicts (removes, not merely
marks) the peers that have been Offline longer than the eviction grace
period. -/
def markSweep (h grace now : Nat) (reg : List Peer) : List Peer :=
  (reg.map (fun p => { p with state := peerStateFor h now p.lastSeen })).filter
    (fun p => now - p.lastSeen < 3 * h + grace)

/-- Modelled from the spec: the wire-level message record handled by the
Message Router. -/
inductive MessageKind where
  | Broadcast
  | Private
  | Group
deriving Repr, DecidableEq

/-- Modelled from the spec: one routed message with its sender-generated
unique id, used for inbound de-duplication. -/
structure Message where
  id : String
  kind : MessageKind
  senderId : String
  recipientId : Option String
  groupId : Option String
  content : String
  timestamp : Nat
deriving Repr, DecidableEq

/-- Modelled from the spec: the inbound state of the Message Router — the
bounded recently-seen id set and the list of emitted MessageReceived
events. -/
structure RouterState where
  seen : List String
  received : List Message
deriving Repr, DecidableEq

/-- Modelled from the spec: inbound delivery to the Message Router — a
message whose id is in the recently-seen set is discarded before emission;
otherwise the id enters the bounded seen set and one MessageReceived event
is emitted. -/
def deliver (cap : Nat) (st : RouterState) (m : Message) : RouterState :=
  if st.seen.contains m.id then st
  else { seen := (m.id :: st.seen).take cap, received := st.received ++ [m] }

/-- Modelled from the spec: delivering a sequence of inbound messages in
order. -/
def deliverAll (cap : Nat) (st : RouterState) (ms : List Message) : RouterState :=
  ms.foldl (deliver cap) st

/-- Modelled from the spec: the typed transport send errors. -/
inductive SendError where
  | Unreachable
  | Timeout
  | Refused
deriving Repr, DecidableEq

/-- Modelled from the spec: one reliable frame handed to the Transport
Layer, addressed to a concrete (ip, port) pair. -/
structure Frame where
  dest : String × Nat
  payload : String
deriving Repr, DecidableEq

/-- Modelled from the spec: the best known address of a peer is the front
of its most-recently-confirmed-first address list. -/
def bestAddress (p : Peer) : Option (String × Nat) :=
  p.addresses.head?

/-- Modelled from the spec: the Private send path of the Message Router,
which is not present under src — resolves the recipient through the Peer
Registry and, when the peer is absent, Offline or without a known address,
surfaces the failed send to the caller as an Unreachable error while
transmitting no frame; the second component is the list of frames handed
to the transport. -/
def sendPrivate (reg : List Peer) (recipientId payload : String) :
    Except SendError Frame × List Frame :=
  match reg.find? (fun p => p.id == recipientId) with
  | none => (Except.error SendError.Unreachable, [])
  | some p =>
    if p.state = PeerState.Offline then (Except.error SendError.Unreachable, [])
    else
      match bestAddress p with
      | none => (Except.error SendError.Unreachable, [])
      | some a => (Except.ok { dest := a, payload := payload }, [{ dest := a, payload := payload }])

end SpecModel

namespace SSH

/-- A concrete config used to exercise the SSH provider. -/
def cfg0 : SSHConfig :=
  { id := some "c1"
    name := "box"
    host := "h"
    port := 22
    username := "u"
    password := none
    privateKey := none
    passphrase := none
    savePassword := false }

/-- A concrete config whose password is to be saved. -/
def cfgSecret : SSHConfig :=
  { cfg0 with id := some "c9", password := some "hunter2", savePassword := true }

/-- A concrete connected connection. -/
def conn1 : SSHConnection :=
  { id := "c1"
    config := cfg0
    status := SSHStatus.connected
    error := none
    lastActivity := 0
    history := [] }

/-- The provider state before any connection exists. -/
def sEmpty : SSHState :=
  { connections := [], outputs := [], activeConnection := none, isConnecting := false }

/-- A concrete state holding one connected connection. -/
def s0 : SSHState :=
  { connections := [conn1], outputs := [], activeConnection := some "c1", isConnecting := false }

/-- A concrete state whose buffer for c1 already holds two chunks. -/
def sBuf : SSHState :=
  { connections := [conn1]
    outputs := [("c1",
      [{ connectionId := "c1", output := "a\r\n", error := false, timestamp := 1 },
       { connectionId := "c1", output := "b\r\n", error := false, timestamp := 2 }])]
    activeConnection := some "c1"
    isConnecting := false }

end SSH

namespace SpecModel

/-- A concrete routed message used to exercise the de-duplication model. -/
def mA : Message :=
  { id := "a"
    kind := MessageKind.Broadcast
    senderId := "s"
    recipientId := none
    groupId := none
    content := "hello"
    timestamp := 0 }

/-- A concrete registry peer with lastSeen equal to zero. -/
def pW : Peer :=
  { id := "p1"
    displayName := "A"
    addresses := [("10.0.0.2", 9000)]
    lastSeen := 0
    state := PeerState.Online }

/-- A concrete registry holding one Offline peer, for the unreachable-send
scenario. -/
def regW : List Peer :=
  [{ pW with state := PeerState.Offline }]

end SpecModel

namespace SSH

/-- A map that preserves the key commutes with a find by key. -/
theorem find?_map_key {α : Type} (key : α → String) (c : String) (f : α → α)
    (hf : ∀ x, key (f x) = key x) :
    ∀ l : List α,
      (l.map f).find? (fun x => key x == c) = (l.find? (fun x => key x == c)).map f := by
  intro l
  induction l with
  | nil => rfl
  | cons a t ih =>
    rw [List.map_cons, List.find?_cons, List.find?_cons, hf a]
    cases key a == c
    · exact ih
    · rfl

/-- The record update of the outputs map stores the value under its key. -/
theorem find?_setOutputs_self (o : List (String × List SSHOutput)) (k : String)
    (v : List SSHOutput) :
    (setOutputs o k v).find? (fun p => p.1 == k) = some (k, v) := by
  unfold setOutputs
  by_cases h : o.any (fun p => p.1 == k) = true
  · rw [if_pos h]
    have hkey : ∀ x : String × List SSHOutput,
        ((if x.1 == k then (k, v) else x).1) = x.1 := by
      intro x
      by_cases hx : (x.1 == k) = true
      · simp [hx, (eq_of_beq hx).symm]
      · simp [hx]
    rw [find?_map_key Prod.fst k _ hkey o]
    obtain ⟨p0, hmem, hp0⟩ := List.any_eq_true.mp h
    have hsome : (o.find? (fun p => p.1 == k)).isSome :=
      List.find?_isSome.mpr ⟨p0, hmem, hp0⟩
    obtain ⟨p1, hp1⟩ := Option.isSome_iff_exists.mp hsome
    rw [hp1]
    have hb := List.find?_some hp1
    show some (if p1.1 == k then (k, v) else p1) = some (k, v)
    simp [hb]
  · rw [if_neg h, List.find?_append]
    have hfalse : o.any (fun p => p.1 == k) = false := by
      cases hv : o.any (fun p => p.1 == k)
      · rfl
      · exact absurd hv h
    have hnone : o.find? (fun p => p.1 == k) = none := by
      refine List.find?_eq_none.mpr ?_
      intro x hx
      intro hpx
      have htrue : o.any (fun p => p.1 == k) = true :=
        List.any_eq_true.mpr ⟨x, hx, hpx⟩
      rw [htrue] at hfalse
      exact Bool.noConfusion hfalse
    rw [hnone]
    simp [List.find?]

/-- After the record update the key is present in the outputs map. -/
theorem any_setOutputs_self (o : List (String × List SSHOutput)) (k : String)
    (v : List SSHOutput) :
    (setOutputs o k v).any (fun p => p.1 == k) = true :=
  List.any_eq_true.mpr
    ⟨(k, v), List.mem_of_find?_eq_some (find?_setOutputs_self o k v), by simp⟩

/-- Reading back the value just stored in the outputs map. -/
theorem getOutputs_setOutputs_self (o : List (String × List SSHOutput)) (k : String)
    (v : List SSHOutput) :
    getOutputs (setOutputs o k v) k = v := by
  unfold getOutputs
  rw [find?_setOutputs_self]

/-- Appending one chunk extends the stored chunk list by that chunk. -/
theorem getOutputs_appendOutput (o : List (String × List SSHOutput)) (k : String)
    (chunk : SSHOutput) :
    getOutputs (appendOutput o k chunk) k = getOutputs o k ++ [chunk] := by
  unfold appendOutput
  exact getOutputs_setOutputs_self o k (getOutputs o k ++ [chunk])

/-- Mapping an idempotent update twice equals mapping it once. -/
theorem map_map_idem {α : Type} (f : α → α) (hf : ∀ x, f (f x) = f x) (l : List α) :
    (l.map f).map f = l.map f := by
  induction l with
  | nil => rfl
  | cons a t ih => simp only [List.map_cons, ih, hf]

/-- Setting the status of every connection with a given id rewrites the
observable status of that id, whatever it was. -/
theorem statusOf_map_set (s : SSHState) (c : String) (newSt : SSHStatus) :
    ((s.connections.map (fun x => if x.id == c then { x with status := newSt } else x)).find?
        (fun x => x.id == c)).map (fun x => x.status)
      = (statusOf s c).map (fun _ => newSt) := by
  rw [find?_map_key (fun x => x.id) c _
        (by intro x; by_cases hx : (x.id == c) = true <;> simp [hx]) s.connections]
  unfold statusOf
  cases hf : s.connections.find? (fun x => x.id == c) with
  | none => rfl
  | some x =>
    have hb := List.find?_some hf
    show some (if x.id == c then { x with status := newSt } else x).status = some newSt
    simp [hb]

/-- Unfolding of executeCommand when no connection with the id exists. -/
theorem executeCommand_eq_of_none (now : Nat) (c cmd : String) (s : SSHState)
    (hf : s.connections.find? (fun conn => conn.id == c) = none) :
    executeCommand now c cmd s =
      ({ s with outputs := appendOutput s.outputs c (notConnectedChunk c now) },
       false) := by
  unfold executeCommand
  rw [hf]

/-- Unfolding of executeCommand when a connection with the id exists. -/
theorem executeCommand_eq_of_some (now : Nat) (c cmd : String) (s : SSHState)
    (conn : SSHConnection)
    (hf : s.connections.find? (fun conn => conn.id == c) = some conn) :
    executeCommand now c cmd s =
      (if conn.status = SSHStatus.connected then
        ({ s with
           connections := s.connections.map (fun x =>
             if x.id == c then
               { x with
                 lastActivity := now
                 history := x.history ++ [{ command := cmd, timestamp := now }] }
             else x)
           outputs := appendOutput
             (appendOutput s.outputs c (echoChunk c cmd now)) c
             (simChunk c cmd now) }, true)
      else
        ({ s with outputs := appendOutput s.outputs c (notConnectedChunk c now) },
         false)) := by
  unfold executeCommand
  rw [hf]

end SSH

namespace SpecModel

/-- Delivering messages whose ids are all in the recently-seen set changes
nothing. -/
theorem deliverAll_of_seen (cap : Nat) :
    ∀ (ms : List Message) (st : RouterState),
      (∀ x ∈ ms, st.seen.contains x.id = true) → deliverAll cap st ms = st := by
  intro ms
  induction ms with
  | nil => intro st _; rfl
  | cons a t ih =>
    intro st h
    have ha := h a (by simp)
    have hda : deliver cap st a = st := by
      unfold deliver
      rw [ha]
      exact if_pos rfl
    show deliverAll cap (deliver cap st a) t = st
    rw [hda]
    exact ih st (fun x hx => h x (by simp [hx]))

end SpecModel

namespace SSH

/-- C4 counterexample: the claimed state machine fails on the code.  A
connection created by connect starts in status connecting (never Idle),
and a single disconnect call moves it from connected straight to
disconnected; moreover the status type of the source has exactly the four
values connecting, connected, disconnected and error, so no Idle or
Disconnecting status exists at all. -/
theorem C4_state_machine_counterexample :
    statusOf (connectStart 0 "f1" cfg0 sEmpty) "c1" = some SSHStatus.connecting ∧
    statusOf (connectFinish 1 "f1" cfg0 (connectStart 0 "f1" cfg0 sEmpty)) "c1" =
      some SSHStatus.connected ∧
    statusOf (disconnect 2 "c1"
        (connectFinish 1 "f1" cfg0 (connectStart 0 "f1" cfg0 sEmpty))).1 "c1" =
      some SSHStatus.disconnected ∧
    (∀ st : SSHStatus, st = SSHStatus.connecting ∨ st = SSHStatus.connected ∨
      st = SSHStatus.disconnected ∨ st = SSHStatus.error) := by
  refine ⟨by decide, by decide, by decide, ?_⟩
  intro st
  cases st
  · exact Or.inl rfl
  · exact Or.inr (Or.inl rfl)
  · exact Or.inr (Or.inr (Or.inl rfl))
  · exact Or.inr (Or.inr (Or.inr rfl))

/-- C7 counterexample: clearOutput shrinks a two-chunk buffer to a single
fresh chunk that was never in the buffer, so the buffer is not append-only
and the operation is not a ring-buffer drop of oldest chunks. -/
theorem C7_buffer_counterexample :
    (getOutputs sBuf.outputs "c1").length = 2 ∧
    getOutputs (clearOutput 3 "c1" sBuf).outputs "c1" =
      [{ connectionId := "c1", output := "Terminal cleared\r\n", error := false,
         timestamp := 3 }] ∧
    ({ connectionId := "c1", output := "Terminal cleared\r\n", error := false,
       timestamp := 3 } : SSHOutput) ∉ getOutputs sBuf.outputs "c1" := by
  decide

/-- C8 counterexample: connect with savePassword set stores the raw
password inside the connection registry. -/
theorem C8_secret_counterexample :
    ((connectStart 0 "f1" cfgSecret sEmpty).connections.getLast?).map
      (fun conn => conn.config.password) = some (some "hunter2") := by
  decide

/-- C9 counterexample: a second disconnect of an already disconnected
connection appends one more Disconnected chunk to the output buffer of
that connection, so the whole provider state differs from the single
call. -/
theorem C9_disconnect_counterexample :
    (disconnect 0 "c1" (disconnect 0 "c1" s0).1).1 ≠ (disconnect 0 "c1" s0).1 := by
  decide

/-- C4 amended: every connection is created by connect in status
connecting (no Idle state exists), the completion of connect moves the
connection with that id to connected whatever its status was, and
disconnect moves the connection with that id directly to disconnected
whatever its status was, with no intermediate Disconnecting state. -/
theorem C4_status_transitions (now now' now2 : Nat) (fresh : String)
    (config : SSHConfig) (s : SSHState) (c : String) :
    ((connectStart now fresh config s).connections.getLast?).map
        (fun conn => conn.status) = some SSHStatus.connecting ∧
    statusOf (connectFinish now' fresh config s) (config.id.getD fresh) =
      (statusOf s (config.id.getD fresh)).map (fun _ => SSHStatus.connected) ∧
    statusOf (disconnect now2 c s).1 c =
      (statusOf s c).map (fun _ => SSHStatus.disconnected) := by
  refine ⟨?_, ?_, ?_⟩
  · simp only [connectStart]
    rw [List.getLast?_concat]
    rfl
  · exact statusOf_map_set s (config.id.getD fresh) SSHStatus.connected
  · exact statusOf_map_set s c SSHStatus.disconnected

/-- C9 amended: disconnect leaves the connection with the given id in
status disconnected and is idempotent on the connections list and on the
active connection, but not on the whole provider state: every call
appends one more Disconnected chunk to the output buffer of that
connection. -/
theorem C9_disconnect_partial_idempotence (t t' : Nat) (c : String) (s : SSHState) :
    statusOf (disconnect t c s).1 c =
      (statusOf s c).map (fun _ => SSHStatus.disconnected) ∧
    (disconnect t' c (disconnect t c s).1).1.connections =
      (disconnect t c s).1.connections ∧
    (disconnect t' c (disconnect t c s).1).1.activeConnection =
      (disconnect t c s).1.activeConnection ∧
    getOutputs (disconnect t' c (disconnect t c s).1).1.outputs c =
      getOutputs (disconnect t c s).1.outputs c ++ [disconnectedChunk c t'] := by
  refine ⟨statusOf_map_set s c SSHStatus.disconnected, ?_, ?_, ?_⟩
  · show (s.connections.map _).map _ = s.connections.map _
    refine map_map_idem _ ?_ s.connections
    intro x
    by_cases hx : (x.id == c) = true
    · simp [hx]
    · simp [hx]
  · show (if (if s.activeConnection = some c then none else s.activeConnection)
          = some c then none
        else (if s.activeConnection = some c then none else s.activeConnection))
      = (if s.activeConnection = some c then none else s.activeConnection)
    by_cases h : s.activeConnection = some c
    · simp [h]
    · simp [h]
  · exact getOutputs_appendOutput _ c _

/-- C7 amended: the output buffer of a connection is an ordered sequence
of timestamped chunks tagged by an error flag; executeCommand and
disconnect only append chunks to it, but the buffer is not bounded — no
capacity exists and no oldest chunks are ever dropped — and clearOutput
replaces the whole buffer with a single fresh chunk instead of
appending. -/
theorem C7_buffer_append_unbounded (now : Nat) (c cmd : String) (s : SSHState) :
    (∃ tail : List SSHOutput, tail ≠ [] ∧
      getOutputs (executeCommand now c cmd s).1.outputs c =
        getOutputs s.outputs c ++ tail) ∧
    getOutputs (disconnect now c s).1.outputs c =
      getOutputs s.outputs c ++ [disconnectedChunk c now] ∧
    getOutputs (clearOutput now c s).outputs c = [clearedChunk c now] := by
  refine ⟨?_, getOutputs_appendOutput _ c _, getOutputs_setOutputs_self _ c _⟩
  cases hf : s.connections.find? (fun conn => conn.id == c) with
  | none =>
    refine ⟨[notConnectedChunk c now], by simp, ?_⟩
    rw [executeCommand_eq_of_none now c cmd s hf]
    exact getOutputs_appendOutput _ c _
  | some conn =>
    by_cases hst : conn.status = SSHStatus.connected
    · refine ⟨[echoChunk c cmd now, simChunk c cmd now], by simp, ?_⟩
      rw [executeCommand_eq_of_some now c cmd s conn hf, if_pos hst]
      have h2 : getOutputs
          (appendOutput (appendOutput s.outputs c (echoChunk c cmd now)) c
            (simChunk c cmd now)) c =
          getOutputs s.outputs c ++ [echoChunk c cmd now, simChunk c cmd now] := by
        rw [getOutputs_appendOutput, getOutputs_appendOutput, List.append_assoc]
        rfl
      exact h2
    · refine ⟨[notConnectedChunk c now], by simp, ?_⟩
      rw [executeCommand_eq_of_some now c cmd s conn hf, if_neg hst]
      exact getOutputs_appendOutput _ c _

/-- C8 amended: connect stores into the registry the given config with the
raw password removed exactly when savePassword is false; when savePassword
is true the raw password is persisted, and privateKey and passphrase are
stored as given; the previously registered connections are untouched. -/
theorem C8_stored_config (now : Nat) (fresh : String) (config : SSHConfig)
    (s : SSHState) :
    ((connectStart now fresh config s).connections.getLast?).map
        (fun conn => conn.config) =
      some { config with
             password := if config.savePassword then config.password else none } ∧
    (connectStart now fresh config s).connections.dropLast = s.connections := by
  constructor
  · simp only [connectStart]
    rw [List.getLast?_concat]
    rfl
  · simp only [connectStart]
    exact List.dropLast_concat

/-- C1: executeCommand fails with the Not connected error when the
connection is absent or its status is not connected; when the status is
connected it appends the command with its timestamp to the history of that
connection, refreshes lastActivity and appends the resulting output chunks
to the output buffer of that connection. -/
theorem C1_executeCommand_contract (now : Nat) (c cmd : String) (s : SSHState) :
    (s.connections.find? (fun conn => conn.id == c) = none →
      (executeCommand now c cmd s).2 = false ∧
      getOutputs (executeCommand now c cmd s).1.outputs c =
        getOutputs s.outputs c ++ [notConnectedChunk c now]) ∧
    (∀ conn, s.connections.find? (fun conn => conn.id == c) = some conn →
      conn.status ≠ SSHStatus.connected →
      (executeCommand now c cmd s).2 = false ∧
      getOutputs (executeCommand now c cmd s).1.outputs c =
        getOutputs s.outputs c ++ [notConnectedChunk c now]) ∧
    (∀ conn, s.connections.find? (fun conn => conn.id == c) = some conn →
      conn.status = SSHStatus.connected →
      (executeCommand now c cmd s).2 = true ∧
      (executeCommand now c cmd s).1.connections.find? (fun conn => conn.id == c) =
        some { conn with
               lastActivity := now
               history := conn.history ++ [{ command := cmd, timestamp := now }] } ∧
      getOutputs (executeCommand now c cmd s).1.outputs c =
        getOutputs s.outputs c ++ [echoChunk c cmd now, simChunk c cmd now]) := by
  refine ⟨?_, ?_, ?_⟩
  · intro hf
    rw [executeCommand_eq_of_none now c cmd s hf]
    exact ⟨rfl, getOutputs_appendOutput _ c _⟩
  · intro conn hf hst
    rw [executeCommand_eq_of_some now c cmd s conn hf, if_neg hst]
    exact ⟨rfl, getOutputs_appendOutput _ c _⟩
  · intro conn hf hst
    rw [executeCommand_eq_of_some now c cmd s conn hf, if_pos hst]
    have hb := List.find?_some hf
    refine ⟨rfl, ?_, ?_⟩
    · have hkey : ∀ x : SSHConnection,
          ((fun x => if x.id == c then
              { x with
                lastActivity := now
                history := x.history ++ [{ command := cmd, timestamp := now }] }
            else x) x).id = x.id := by
        intro x
        by_cases hx : (x.id == c) = true <;> simp [hx]
      have h3 := find?_map_key (fun x => x.id) c _ hkey s.connections
      rw [hf, Option.map_some'] at h3
      have h4 : (s.connections.map (fun x => if x.id == c then
              { x with
                lastActivity := now
                history := x.history ++ [{ command := cmd, timestamp := now }] }
            else x)).find? (fun x => x.id == c) =
          some { conn with
                 lastActivity := now
                 history := conn.history ++ [{ command := cmd, timestamp := now }] } := by
        rw [h3]
        simp [hb]
      exact h4
    · have h2 : getOutputs
          (appendOutput (appendOutput s.outputs c (echoChunk c cmd now)) c
            (simChunk c cmd now)) c =
          getOutputs s.outputs c ++ [echoChunk c cmd now, simChunk c cmd now] := by
        rw [getOutputs_appendOutput, getOutputs_appendOutput, List.append_assoc]
        rfl
      exact h2

/-- C10: when the connection id is absent or its status is not connected,
executeCommand returns false, leaves the connections list entirely
unchanged and appends exactly one error-flagged Not connected chunk to the
outputs map under that id, creating the outputs entry when none
existed. -/
theorem C10_executeCommand_error_path (now : Nat) (c cmd : String) (s : SSHState)
    (h : ∀ conn, s.connections.find? (fun conn => conn.id == c) = some conn →
      conn.status ≠ SSHStatus.connected) :
    (executeCommand now c cmd s).2 = false ∧
    (executeCommand now c cmd s).1.connections = s.connections ∧
    getOutputs (executeCommand now c cmd s).1.outputs c =
      getOutputs s.outputs c ++ [notConnectedChunk c now] ∧
    (notConnectedChunk c now).error = true ∧
    (executeCommand now c cmd s).1.outputs.any (fun p => p.1 == c) = true := by
  cases hf : s.connections.find? (fun conn => conn.id == c) with
  | none =>
    rw [executeCommand_eq_of_none now c cmd s hf]
    exact ⟨rfl, rfl, getOutputs_appendOutput _ c _, rfl, any_setOutputs_self _ c _⟩
  | some conn =>
    rw [executeCommand_eq_of_some now c cmd s conn hf, if_neg (h conn hf)]
    exact ⟨rfl, rfl, getOutputs_appendOutput _ c _, rfl, any_setOutputs_self _ c _⟩

/-- C1 witness: the contract evaluated on a concrete connected
connection. -/
theorem C1_executeCommand_contract_witness :
    (executeCommand 5 "c1" "pwd" s0).2 = true ∧
    (executeCommand 5 "c1" "pwd" s0).1.connections.find?
        (fun conn => conn.id == "c1") =
      some { conn1 with
             lastActivity := 5
             history := conn1.history ++ [{ command := "pwd", timestamp := 5 }] } ∧
    getOutputs (executeCommand 5 "c1" "pwd" s0).1.outputs "c1" =
      getOutputs s0.outputs "c1" ++ [echoChunk "c1" "pwd" 5, simChunk "c1" "pwd" 5] :=
  (C1_executeCommand_contract 5 "c1" "pwd" s0).2.2 conn1 rfl rfl

/-- C10 witness: the error path evaluated for an id that is absent from
the connections list, showing the outputs entry is created. -/
theorem C10_executeCommand_error_path_witness :
    (executeCommand 7 "c2" "ls" s0).2 = false ∧
    (executeCommand 7 "c2" "ls" s0).1.connections = s0.connections ∧
    getOutputs (executeCommand 7 "c2" "ls" s0).1.outputs "c2" =
      getOutputs s0.outputs "c2" ++ [notConnectedChunk "c2" 7] ∧
    (notConnectedChunk "c2" 7).error = true ∧
    (executeCommand 7 "c2" "ls" s0).1.outputs.any (fun p => p.1 == "c2") = true := by
  refine C10_executeCommand_error_path 7 "c2" "ls" s0 ?_
  intro conn hconn
  have hnone : s0.connections.find? (fun conn => conn.id == "c2") = none := by decide
  rw [hnone] at hconn
  exact Option.noConfusion hconn

end SSH

namespace Net

/-- C5 counterexample: sendMessage called with both a recipient and a
group produces (and appends) a private message that carries both
fields. -/
theorem C5_both_fields_counterexample :
    (mkSendMessage 0 "m1" "u" "hi" (some "p1") (some "g1")).recipient = some "p1" ∧
    (mkSendMessage 0 "m1" "u" "hi" (some "p1") (some "g1")).group = some "g1" ∧
    (mkSendMessage 0 "m1" "u" "hi" (some "p1") (some "g1")).isPrivate = true ∧
    sendMessage 0 "m1" "u" "hi" (some "p1") (some "g1") [] =
      [mkSendMessage 0 "m1" "u" "hi" (some "p1") (some "g1")] := by
  decide

/-- C5 amended: provided the caller passes at most one of recipientId and
groupId, every non-broadcast message built by sendMessage carries exactly
one of the recipient and group fields, and the simulated replies always
carry a recipient and no group; the unrestricted claim fails because
sendMessage copies both arguments into the message unchecked. -/
theorem C5_exactly_one_target (now : Nat) (id username content : String)
    (r g : Option String) (hrg : ¬ (r.isSome = true ∧ g.isSome = true)) :
    (((mkSendMessage now id username content r g).recipient.isSome = true ∨
       (mkSendMessage now id username content r g).group.isSome = true) →
      ((mkSendMessage now id username content r g).recipient.isSome = true ↔
        ¬ (mkSendMessage now id username content r g).group.isSome = true)) ∧
    (∀ rid rname k, (mkResponse now id rid rname k).recipient = some "self" ∧
      (mkResponse now id rid rname k).group = none) := by
  constructor
  · intro hor
    constructor
    · intro hrs hgs
      exact hrg ⟨hrs, hgs⟩
    · intro hng
      cases hor with
      | inl hr => exact hr
      | inr hg => exact absurd hg hng
  · intro rid rname k
    exact ⟨rfl, rfl⟩

/-- C5 witness: a private send with a recipient and no group has exactly
the recipient set, and a concrete simulated reply targets self with no
group. -/
theorem C5_exactly_one_target_witness :
    ((mkSendMessage 0 "m1" "u" "hi" (some "p1") none).recipient.isSome = true ↔
      ¬ (mkSendMessage 0 "m1" "u" "hi" (some "p1") none).group.isSome = true) ∧
    (mkResponse 0 "m2" "p1" "Alice" 0).recipient = some "self" ∧
    (mkResponse 0 "m2" "p1" "Alice" 0).group = none := by
  have h := C5_exactly_one_target 0 "m1" "u" "hi" (some "p1") none (by decide)
  exact ⟨h.1 (Or.inl rfl), h.2 "p1" "Alice" 0⟩

end Net

namespace SpecModel

/-- C2: delivering one or more inbound messages that all carry the same id
yields exactly one MessageReceived event — the first copy is emitted and
every duplicate is discarded before emission — and delivering them to a
router that has already seen the id emits nothing at all; stated over the
spec-modelled Message Router with a recently-seen set bounded by cap. -/
theorem C2_dedup_idempotence (cap : Nat) (st : RouterState) (m : Message)
    (rest : List Message)
    (hcap : 1 ≤ cap)
    (hall : ∀ x ∈ rest, x.id = m.id)
    (hnew : st.seen.contains m.id = false) :
    (deliverAll cap st (m :: rest)).received = st.received ++ [m] ∧
    (∀ st2 : RouterState, st2.seen.contains m.id = true →
      deliverAll cap st2 (m :: rest) = st2) := by
  constructor
  · obtain ⟨n, rfl⟩ : ∃ n, cap = n + 1 :=
      ⟨cap - 1, (Nat.succ_pred_eq_of_pos hcap).symm⟩
    have hstep : deliver (n + 1) st m =
        ⟨(m.id :: st.seen).take (n + 1), st.received ++ [m]⟩ := by
      unfold deliver
      rw [hnew]
      exact if_neg (fun hx => Bool.noConfusion hx)
    have hrest : ∀ x ∈ rest,
        (⟨(m.id :: st.seen).take (n + 1), st.received ++ [m]⟩ :
          RouterState).seen.contains x.id = true := by
      intro x hx
      show ((m.id :: st.seen).take (n + 1)).contains x.id = true
      rw [hall x hx, List.take_succ_cons, List.contains_cons]
      simp
    have hfin := deliverAll_of_seen (n + 1) rest
      ⟨(m.id :: st.seen).take (n + 1), st.received ++ [m]⟩ hrest
    show (deliverAll (n + 1) (deliver (n + 1) st m) rest).received =
      st.received ++ [m]
    rw [hstep, hfin]
  · intro st2 hseen
    refine deliverAll_of_seen cap (m :: rest) st2 ?_
    intro x hx
    rcases List.mem_cons.mp hx with hx1 | hx2
    · rw [hx1]
      exact hseen
    · rw [hall x hx2]
      exact hseen

/-- C2 witness: three deliveries of the same message produce exactly one
received entry, and deliveries of an already-seen id change nothing. -/
theorem C2_dedup_idempotence_witness :
    (deliverAll 3 ⟨[], []⟩ [mA, mA, mA]).received = [mA] ∧
    deliverAll 3 ⟨["a"], []⟩ [mA, mA, mA] = ⟨["a"], []⟩ := by
  have h := C2_dedup_idempotence 3 ⟨[], []⟩ mA [mA, mA]
    (by decide) (by decide) (by decide)
  exact ⟨h.1, h.2 ⟨["a"], []⟩ (by decide)⟩

/-- C3: when no beacon or message from a peer has refreshed lastSeen for
at least three heartbeat intervals, the next sweep marks the peer Offline;
once the eviction grace period has also elapsed with still no traffic, a
later sweep removes every entry of that peer from the registry; stated
over the spec-modelled Peer Registry markSweep. -/
theorem C3_liveness_and_eviction (h grace now now2 : Nat) (reg : List Peer)
    (p : Peer) (hmem : p ∈ reg)
    (hoff : 3 * h ≤ now - p.lastSeen)
    (hkeep : now - p.lastSeen < 3 * h + grace)
    (hevict : 3 * h + grace ≤ now2 - p.lastSeen) :
    { p with state := PeerState.Offline } ∈ markSweep h grace now reg ∧
    ∀ q ∈ markSweep h grace now2 (markSweep h grace now reg),
      q.lastSeen ≠ p.lastSeen := by
  constructor
  · unfold markSweep
    refine List.mem_filter.mpr ⟨?_, ?_⟩
    · have hstate : peerStateFor h now p.lastSeen = PeerState.Offline := by
        unfold peerStateFor
        rw [if_neg (by omega), if_neg (by omega)]
      have himg := List.mem_map_of_mem
        (fun q => { q with state := peerStateFor h now q.lastSeen }) hmem
      have himg2 : { p with state := peerStateFor h now p.lastSeen } ∈
          reg.map (fun q => { q with state := peerStateFor h now q.lastSeen }) := himg
      rw [hstate] at himg2
      exact himg2
    · exact decide_eq_true hkeep
  · intro q hq
    have hq2 := (List.mem_filter.mp hq).2
    have hlt : now2 - q.lastSeen < 3 * h + grace := of_decide_eq_true hq2
    intro heq
    rw [heq] at hlt
    omega

/-- C3 witness: with heartbeat 5 and grace 10, a peer last seen at 0 is
Offline after the sweep at 16 and gone after the sweep at 25. -/
theorem C3_liveness_and_eviction_witness :
    { pW with state := PeerState.Offline } ∈ markSweep 5 10 16 [pW] ∧
    { pW with state := PeerState.Offline } ∉
      markSweep 5 10 25 (markSweep 5 10 16 [pW]) := by
  have h := C3_liveness_and_eviction 5 10 16 25 [pW] pW
    (by decide) (by decide) (by decide) (by decide)
  refine ⟨h.1, ?_⟩
  intro hmem2
  exact (h.2 _ hmem2) rfl

/-- Unfolding of sendPrivate when the registry lookup finds a peer. -/
theorem sendPrivate_eq_of_some (reg : List Peer) (rid payload : String)
    (p : Peer) (hp : reg.find? (fun p => p.id == rid) = some p) :
    sendPrivate reg rid payload =
      (if p.state = PeerState.Offline then
        (Except.error SendError.Unreachable, [])
      else
        match bestAddress p with
        | none => (Except.error SendError.Unreachable, [])
        | some a =>
          (Except.ok { dest := a, payload := payload },
           [{ dest := a, payload := payload }])) := by
  unfold sendPrivate
  rw [hp]

/-- C6: a Private send addressed to a peer that is absent from the
registry, Offline, or without a known address surfaces the Unreachable
failure to the caller and transmits no frame; stated over the
spec-modelled Message Router send path. -/
theorem C6_unreachable_surfaced (reg : List Peer) (rid payload : String)
    (h : reg.find? (fun p => p.id == rid) = none ∨
      ∃ p, reg.find? (fun p => p.id == rid) = some p ∧
        (p.state = PeerState.Offline ∨ p.addresses = [])) :
    sendPrivate reg rid payload = (Except.error SendError.Unreachable, []) := by
  rcases h with hnone | ⟨p, hp, hcase⟩
  · unfold sendPrivate
    rw [hnone]
  · rw [sendPrivate_eq_of_some reg rid payload p hp]
    by_cases hoff : p.state = PeerState.Offline
    · rw [if_pos hoff]
    · rcases hcase with hoff2 | haddr
      · exact absurd hoff2 hoff
      · rw [if_neg hoff]
        have hba : bestAddress p = none := by
          unfold bestAddress
          rw [haddr]
          rfl
        rw [hba]

/-- C6 witness: sending to the Offline peer of the concrete registry fails
Unreachable with no transmitted frame. -/
theorem C6_unreachable_surfaced_witness :
    sendPrivate regW "p1" "hello" = (Except.error SendError.Unreachable, []) := by
  refine C6_unreachable_surfaced regW "p1" "hello"
    (Or.inr ⟨{ pW with state := PeerState.Offline }, ?_, Or.inl rfl⟩)
  decide

end SpecModel

end Ztalk
